import Mathlib

/-!
# Verification of the Minecraft Bedrock server monitor

Shallow embedding of `custom_components/minecraft_bedrock/__init__.py`,
class `MinecraftServer`: the periodic status-polling and state-reconciliation
core.  Pure data is modelled directly; the stateful update cycle is modelled
as explicit state passing.  Python exceptions escaping a method are modelled
as an `Option PyError` component of each step's result (``some e`` means the
exception ``e`` propagated and the remaining statements of the caller do not
run).  Python floats are modelled as rationals; `round(x, 3)` is modelled as
round-half-to-even at three decimals, as Python's `round` behaves.

Log levels: the claims concern warning- and info-level messages and the
dispatcher notification, so those are the emitted `Event`s; `_LOGGER.debug`
calls carry no spec weight and are not events.  Invocation of the one-time
SRV-resolution helper is recorded as the event `Event.resolverInvoked`.
-/

namespace MinecraftBedrock

/-- Result object of a successful `self._mc_status.status(...)` call, as the
fields the source reads off `status_response`: `version.brand`,
`version.protocol`, `players_max`, `players_online`, `latency`, `motd`,
`map`. -/
structure StatusResponse where
  versionBrand : String
  versionProtocol : Nat
  playersMax : Nat
  playersOnline : Nat
  latency : ℚ
  motd : String
  map : String
deriving DecidableEq

/-- Outcome of the connectivity `status` call in `async_check_connection`:
it returns normally, raises an `OSError`, or raises any other exception
(the `except OSError` clause catches only the second). -/
inductive ProbeOutcome
  | ok
  | errOS
  | errOther
deriving DecidableEq

/-- Outcome of the metrics `status` call in `_async_status_request`. -/
inductive MetricsOutcome
  | ok (r : StatusResponse)
  | errOS
  | errOther
deriving DecidableEq

/-- The external inputs consumed by one `async_update` cycle: the result of
`helpers.async_check_srv_record` (consulted only on the first cycle), and the
outcomes of the two `status` calls (each consulted only if control reaches
it). -/
structure CycleInput where
  srvRecord : Option (String × Nat)
  probe : ProbeOutcome
  metrics : MetricsOutcome
deriving DecidableEq

/-- Observable events of one cycle: warning/info log messages, the
dispatcher notification, and the invocation of the SRV-resolution helper. -/
inductive Event
  | resolverInvoked
  | warnConnLost
  | infoConnEstablished
  | warnMetricsFailed
  | infoMetricsRecovered
  | notifyUpdated
deriving DecidableEq

/-- `Event.isLogMessage e` holds for the warning/info log messages (the
"log events" of the spec), excluding the dispatcher notification and the
resolver invocation. -/
def Event.isLogMessage : Event → Bool
  | .warnConnLost => true
  | .infoConnEstablished => true
  | .warnMetricsFailed => true
  | .infoMetricsRecovered => true
  | _ => false

/-- A Python exception escaping the update cycle uncaught: the `NameError`
raised by the undefined name `MCStatus` in the SRV-rewrite branch, or any
non-`OSError` exception raised by a `status` call (which the `except
OSError` clauses do not catch). -/
inductive PyError
  | nameError
  | otherError
deriving DecidableEq

/-- The mutable fields of a `MinecraftServer` instance that the update cycle
reads or writes.  Names follow the Python attributes (`self.host`,
`self.port`, `self.online`, `self._last_status_request_failed`,
`self.srv_record_checked`, `self.version`, `self.protocol_version`,
`self.latency_time`, `self.players_online`, `self.players_max`,
`self.players_list`, `self.motd`, `self.map`). -/
structure ServerState where
  host : String
  port : Nat
  online : Bool
  lastStatusRequestFailed : Bool
  srvRecordChecked : Bool
  version : Option String
  protocolVersion : Option Nat
  latencyTime : Option ℚ
  playersOnline : Option Nat
  playersMax : Option Nat
  playersList : Option (List String)
  motd : Option String
  map : Option String
deriving DecidableEq

/-- `MinecraftServer.__init__`: the state of a freshly constructed monitor
for the configured `host`/`port`. -/
def initialState (host : String) (port : Nat) : ServerState :=
  { host := host
    port := port
    online := false
    lastStatusRequestFailed := false
    srvRecordChecked := false
    version := none
    protocolVersion := none
    latencyTime := none
    playersOnline := none
    playersMax := none
    playersList := none
    motd := none
    map := none }

/-- Python's banker's rounding of a rational to the nearest integer
(`round(q)`): round half to even.  Writing `f = ⌊q⌋` and
`t = 2·(num − f·den) = 2·den·(q − f)`, the fractional part of `q` is below,
above or at one half according as `t` is below, above or equal to `den`. -/
def pyRound (q : ℚ) : ℤ :=
  let f := Rat.floor q
  let t : ℤ := 2 * (q.num - f * (q.den : ℤ))
  if t < (q.den : ℤ) then f
  else if (q.den : ℤ) < t then f + 1
  else if f % 2 = 0 then f else f + 1

/-- Python's `round(q, 3)`: banker's rounding at three decimal places, the
integer `pyRound (q * 1000)` divided by `1000`. -/
def pyRound3 (q : ℚ) : ℚ := mkRat (pyRound (q * 1000)) 1000

/-- The SRV-record step at the top of `async_check_connection`.  If the
record was not checked yet, `srv_record_checked` is set and the resolver is
invoked; if the resolver returns a record, `self.host` and `self.port` are
rewritten and then the statement `self._mc_status = MCStatus(self.host,
self.port)` raises `NameError` (`MCStatus` is not a defined name; the
library was imported as `MCStatusBedrock`), which propagates. -/
def srvStep (rec : Option (String × Nat)) (s : ServerState) :
    ServerState × List Event × Option PyError :=
  if s.srvRecordChecked then (s, [], none)
  else
    match rec with
    | none => ({ s with srvRecordChecked := true }, [.resolverInvoked], none)
    | some (h, p) =>
        ({ s with srvRecordChecked := true, host := h, port := p },
         [.resolverInvoked], some .nameError)

/-- `MinecraftServer.async_check_connection`: the SRV step, then the
connectivity ping `self._mc_status.status(self._MAX_RETRIES_STATUS)`.
On normal return `self.online = True`; on `OSError` (caught) a debug message
is logged and `self.online = False`; any other exception propagates. -/
def async_check_connection (inp : CycleInput) (s : ServerState) :
    ServerState × List Event × Option PyError :=
  match srvStep inp.srvRecord s with
  | (s1, evs, some e) => (s1, evs, some e)
  | (s1, evs, none) =>
      match inp.probe with
      | .ok => ({ s1 with online := true }, evs, none)
      | .errOS => ({ s1 with online := false }, evs, none)
      | .errOther => (s1, evs, some .otherError)

/-- `MinecraftServer._async_status_request`: the metrics `status` call.
On success all metric fields are populated (`latency_time` is
`round(status_response.latency * 10000.0, 3)` — the literal scaling of the
source), an info message is logged if the previous request failed, and the
debounce flag is cleared.  On `OSError` (caught) every metric field is set
to `None`, a warning is logged if the previous request did not fail, and the
debounce flag is set.  Any other exception propagates before any field is
written. -/
def async_status_request (m : MetricsOutcome) (s : ServerState) :
    ServerState × List Event × Option PyError :=
  match m with
  | .ok r =>
      ({ s with
          version := some r.versionBrand
          playersMax := some r.playersMax
          playersOnline := some r.playersOnline
          latencyTime := some (pyRound3 (r.latency * 10000))
          motd := some r.motd
          map := some r.map
          protocolVersion := some r.versionProtocol
          lastStatusRequestFailed := false },
       if s.lastStatusRequestFailed then [.infoMetricsRecovered] else [],
       none)
  | .errOS =>
      ({ s with
          version := none
          protocolVersion := none
          playersOnline := none
          playersMax := none
          latencyTime := none
          playersList := none
          motd := none
          map := none
          lastStatusRequestFailed := true },
       if s.lastStatusRequestFailed then [] else [.warnMetricsFailed],
       none)
  | .errOther => (s, [], some .otherError)

/-- `MinecraftServer.async_update`: one update cycle.  It records the old
`online` value, runs `async_check_connection`, logs the connectivity
transition edges (warning on ONLINE→OFFLINE, info on not-ONLINE→ONLINE),
runs `_async_status_request` only if online, and finally sends exactly one
dispatcher notification — unless an uncaught exception aborted the cycle at
the point it was raised. -/
def async_update (inp : CycleInput) (s : ServerState) :
    ServerState × List Event × Option PyError :=
  match async_check_connection inp s with
  | (s1, evs, some e) => (s1, evs, some e)
  | (s1, evs, none) =>
      let transEvs : List Event :=
        if s.online && !s1.online then [.warnConnLost]
        else if !s.online && s1.online then [.infoConnEstablished]
        else []
      if s1.online then
        match async_status_request inp.metrics s1 with
        | (s2, evs2, some e) => (s2, evs ++ transEvs ++ evs2, some e)
        | (s2, evs2, none) =>
            (s2, evs ++ transEvs ++ evs2 ++ [.notifyUpdated], none)
      else
        (s1, evs ++ transEvs ++ [.notifyUpdated], none)

/-- State after running a sequence of update cycles.  The scheduler
(`async_track_time_interval`) keeps firing regardless of an exception
escaping one cycle, so later cycles run from the state the aborted cycle
left behind. -/
def runState : List CycleInput → ServerState → ServerState
  | [], s => s
  | inp :: rest, s => runState rest (async_update inp s).1

/-- The per-cycle trace of a run: for each cycle, the post-state and the
events it emitted. -/
def runCycles : List CycleInput → ServerState → List (ServerState × List Event)
  | [], _ => []
  | inp :: rest, s =>
      ((async_update inp s).1, (async_update inp s).2.1) ::
        runCycles rest (async_update inp s).1

/-- All events of a run of update cycles, in order. -/
def traceEvents : List CycleInput → ServerState → List Event
  | [], _ => []
  | inp :: rest, s =>
      (async_update inp s).2.1 ++ traceEvents rest (async_update inp s).1

/-- Occurrence count of an event in an event list. -/
def countEvent (e : Event) : List Event → Nat
  | [] => 0
  | x :: xs => (if x = e then 1 else 0) + countEvent e xs

/-- State after a sequence of metrics-fetch attempts
(`_async_status_request` iterated). -/
def metricsState : List MetricsOutcome → ServerState → ServerState
  | [], s => s
  | m :: ms, s => metricsState ms (async_status_request m s).1

/-- Per-attempt log events of a sequence of metrics-fetch attempts. -/
def metricsLogTrace : List MetricsOutcome → ServerState → List (List Event)
  | [], _ => []
  | m :: ms, s =>
      (async_status_request m s).2.1 ::
        metricsLogTrace ms (async_status_request m s).1

/-- Per-attempt values of the debounce flag `_last_status_request_failed`
along a sequence of metrics-fetch attempts. -/
def metricsFlagTrace : List MetricsOutcome → ServerState → List Bool
  | [], _ => []
  | m :: ms, s =>
      (async_status_request m s).1.lastStatusRequestFailed ::
        metricsFlagTrace ms (async_status_request m s).1

/-- A sample successful status response used for concrete scenarios. -/
def sampleResponse : StatusResponse :=
  { versionBrand := "1.16.20"
    versionProtocol := 408
    playersMax := 10
    playersOnline := 3
    latency := 0
    motd := "Dedicated Server"
    map := "Bedrock level" }

/-- A cycle input whose probe and metrics fetch both succeed (no SRV
record). -/
def cyOnline : CycleInput :=
  { srvRecord := none, probe := .ok, metrics := .ok sampleResponse }

/-- A cycle input whose connectivity probe fails with `OSError`. -/
def cyProbeFail : CycleInput :=
  { srvRecord := none, probe := .errOS, metrics := .ok sampleResponse }

/-- A concrete state of a monitor past its first cycle: the SRV record
checked, the server online and a metric value populated. -/
def sampleOnlineState : ServerState :=
  { initialState "mc.example.org" 19132 with
      srvRecordChecked := true
      online := true
      version := some "1.16.20" }

/-! ## Helper lemmas -/

lemma countEvent_append (e : Event) (xs ys : List Event) :
    countEvent e (xs ++ ys) = countEvent e xs + countEvent e ys := by
  induction xs with
  | nil => simp [countEvent]
  | cons x xs ih => simp [countEvent, ih]; omega

/-- Every cycle leaves `srv_record_checked` set (it is set before the
resolver is even consulted, and never cleared). -/
lemma async_update_srvChecked (inp : CycleInput) (s : ServerState) :
    (async_update inp s).1.srvRecordChecked = true := by
  rcases s with ⟨h, p, onl, lf, srvc, v, pv, lt, po, pm, pl, mo, mp⟩
  rcases inp with ⟨rec, probe, m⟩
  rcases rec with _ | ⟨rh, rp⟩ <;> rcases probe <;> rcases m with r | _ | _ <;>
    rcases srvc <;> rcases lf <;>
      simp [async_update, async_check_connection, srvStep, async_status_request]

/-- Once `srv_record_checked` is set, a cycle never touches `host` or
`port` and never invokes the resolver. -/
lemma async_update_checked_frame (inp : CycleInput) (s : ServerState)
    (h : s.srvRecordChecked = true) :
    (async_update inp s).1.host = s.host ∧ (async_update inp s).1.port = s.port ∧
      countEvent Event.resolverInvoked (async_update inp s).2.1 = 0 := by
  rcases s with ⟨sh, sp, onl, lf, srvc, v, pv, lt, po, pm, pl, mo, mp⟩
  subst h
  rcases inp with ⟨rec, probe, m⟩
  rcases rec with _ | ⟨rh, rp⟩ <;> rcases probe <;> rcases m with r | _ | _ <;>
    rcases onl <;> rcases lf <;>
      simp [async_update, async_check_connection, srvStep, async_status_request,
        countEvent]

/-- A single cycle invokes the resolver at most once. -/
lemma async_update_resolver_le_one (inp : CycleInput) (s : ServerState) :
    countEvent Event.resolverInvoked (async_update inp s).2.1 ≤ 1 := by
  rcases s with ⟨sh, sp, onl, lf, srvc, v, pv, lt, po, pm, pl, mo, mp⟩
  rcases inp with ⟨rec, probe, m⟩
  rcases rec with _ | ⟨rh, rp⟩ <;> rcases probe <;> rcases m with r | _ | _ <;>
    rcases srvc <;> rcases onl <;> rcases lf <;>
      simp [async_update, async_check_connection, srvStep, async_status_request,
        countEvent]

/-- From a state with `srv_record_checked` set, an arbitrary run of cycles
never invokes the resolver and never changes `host` or `port`. -/
lemma run_checked (inps : List CycleInput) (s : ServerState)
    (h : s.srvRecordChecked = true) :
    countEvent Event.resolverInvoked (traceEvents inps s) = 0 ∧
      (runState inps s).host = s.host ∧ (runState inps s).port = s.port := by
  induction inps generalizing s with
  | nil => simp [traceEvents, runState, countEvent]
  | cons inp rest ih =>
      obtain ⟨h1, h2, h3⟩ := async_update_checked_frame inp s h
      obtain ⟨g1, g2, g3⟩ := ih (async_update inp s).1 (async_update_srvChecked inp s)
      refine ⟨?_, ?_, ?_⟩
      · simp [traceEvents, countEvent_append, h3, g1]
      · simp only [runState, g2, h1]
      · simp only [runState, g3, h2]

/-- Splitting a metrics-fetch run at an append. -/
lemma metricsState_append (xs ys : List MetricsOutcome) (s : ServerState) :
    metricsState (xs ++ ys) s = metricsState ys (metricsState xs s) := by
  induction xs generalizing s with
  | nil => simp [metricsState]
  | cons x xs ih => simp [metricsState, ih]

/-- Splitting the metrics-fetch log trace at an append. -/
lemma metricsLogTrace_append (xs ys : List MetricsOutcome) (s : ServerState) :
    metricsLogTrace (xs ++ ys) s
      = metricsLogTrace xs s ++ metricsLogTrace ys (metricsState xs s) := by
  induction xs generalizing s with
  | nil => simp [metricsLogTrace, metricsState]
  | cons x xs ih => simp [metricsLogTrace, metricsState, ih]

/-- Splitting the metrics-fetch flag trace at an append. -/
lemma metricsFlagTrace_append (xs ys : List MetricsOutcome) (s : ServerState) :
    metricsFlagTrace (xs ++ ys) s
      = metricsFlagTrace xs s ++ metricsFlagTrace ys (metricsState xs s) := by
  induction xs generalizing s with
  | nil => simp [metricsFlagTrace, metricsState]
  | cons x xs ih => simp [metricsFlagTrace, metricsState, ih]

/-- From a state whose debounce flag is already set, a run of consecutive
metrics-fetch failures logs nothing, keeps the flag set throughout, and
ends with the flag still set. -/
lemma metricsFailRun (k : Nat) (s : ServerState)
    (h : s.lastStatusRequestFailed = true) :
    metricsLogTrace (List.replicate k .errOS) s = List.replicate k []
    ∧ metricsFlagTrace (List.replicate k .errOS) s = List.replicate k true
    ∧ (metricsState (List.replicate k .errOS) s).lastStatusRequestFailed = true := by
  induction k generalizing s with
  | zero => simp [metricsLogTrace, metricsFlagTrace, metricsState, h]
  | succ n ih =>
      have hs1 : (async_status_request .errOS s).1.lastStatusRequestFailed = true := by
        simp [async_status_request]
      have hev : (async_status_request .errOS s).2.1 = [] := by
        simp [async_status_request, h]
      obtain ⟨i1, i2, i3⟩ := ih (async_status_request .errOS s).1 hs1
      refine ⟨?_, ?_, ?_⟩
      · simp [List.replicate_succ, metricsLogTrace, hev, i1]
      · simp [List.replicate_succ, metricsFlagTrace, hs1, i2]
      · simp [List.replicate_succ, metricsState, i3]

/-! ## Claim theorems -/

/-- C3: over any maximal run of N ≥ 1 consecutive metrics-fetch failures
followed by a success (starting with the debounce flag clear), exactly one
failure warning is logged, on the first failure; the flag is true
throughout the failures; the first subsequent success logs exactly one
recovery info message and resets the flag; all repeats are silent. -/
theorem c3_debounce (n : Nat) (hn : 1 ≤ n) (r : StatusResponse)
    (s : ServerState) (h : s.lastStatusRequestFailed = false) :
    metricsLogTrace (List.replicate n .errOS ++ [.ok r]) s
      = [Event.warnMetricsFailed]
          :: (List.replicate (n - 1) [] ++ [[Event.infoMetricsRecovered]])
    ∧ metricsFlagTrace (List.replicate n .errOS ++ [.ok r]) s
      = List.replicate n true ++ [false] := by
  obtain ⟨m, rfl⟩ : ∃ m, n = m + 1 := ⟨n - 1, (Nat.succ_pred_eq_of_pos hn).symm⟩
  have hs1 : (async_status_request .errOS s).1.lastStatusRequestFailed = true := by
    simp [async_status_request]
  have hev : (async_status_request .errOS s).2.1 = [Event.warnMetricsFailed] := by
    simp [async_status_request, h]
  obtain ⟨f1, f2, f3⟩ := metricsFailRun m (async_status_request .errOS s).1 hs1
  have hokev : ∀ t : ServerState, t.lastStatusRequestFailed = true →
      (async_status_request (.ok r) t).2.1 = [Event.infoMetricsRecovered] := by
    intro t ht
    simp [async_status_request, ht]
  have hokfl : ∀ t : ServerState,
      (async_status_request (.ok r) t).1.lastStatusRequestFailed = false := by
    intro t
    simp [async_status_request]
  constructor
  · simp [List.replicate_succ, List.cons_append, metricsLogTrace,
      metricsLogTrace_append, hev, f1, hokev _ f3]
  · simp [List.replicate_succ, List.cons_append, metricsFlagTrace,
      metricsFlagTrace_append, hs1, f2, hokfl]

/-- Witness for C3 with N = 2 consecutive failures from a fresh monitor. -/
theorem c3_debounce_witness :
    metricsLogTrace (List.replicate 2 .errOS ++ [.ok sampleResponse])
        (initialState "mc.example.org" 19132)
      = [Event.warnMetricsFailed]
          :: (List.replicate (2 - 1) [] ++ [[Event.infoMetricsRecovered]])
    ∧ metricsFlagTrace (List.replicate 2 .errOS ++ [.ok sampleResponse])
        (initialState "mc.example.org" 19132)
      = List.replicate 2 true ++ [false] :=
  c3_debounce 2 (by decide) sampleResponse (initialState "mc.example.org" 19132) rfl

/-- C6: when the connectivity probe succeeds and the metrics fetch then
fails with `OSError`, the cycle completes with connectivity still ONLINE;
the metrics step changes only the metric fields (all set to `None`) and the
debounce flag — `host`, `port`, `online` and the SRV flag are untouched. -/
theorem c6_metrics_failure_frame (s : ServerState) (inp : CycleInput)
    (hsrv : s.srvRecordChecked = true) (hp : inp.probe = .ok)
    (hm : inp.metrics = .errOS) :
    async_update inp s
      = ({ s with
            online := true
            version := none
            protocolVersion := none
            playersOnline := none
            playersMax := none
            latencyTime := none
            playersList := none
            motd := none
            map := none
            lastStatusRequestFailed := true },
         (if s.online then [] else [Event.infoConnEstablished])
           ++ ((if s.lastStatusRequestFailed then []
                else [Event.warnMetricsFailed]) ++ [Event.notifyUpdated]),
         none) := by
  rcases s with ⟨sh, sp, onl, lf, srvc, v, pv, lt, po, pm, pl, mo, mp⟩
  rcases inp with ⟨rec, probe, m⟩
  subst hsrv hp hm
  rcases onl <;> rcases lf <;>
    simp [async_update, async_check_connection, srvStep, async_status_request]

/-- Witness for C6: a monitor that was online with populated metrics, whose
probe succeeds and whose metrics fetch then fails. -/
theorem c6_metrics_failure_frame_witness :
    async_update { srvRecord := none, probe := .ok, metrics := .errOS }
        sampleOnlineState
      = ({ sampleOnlineState with
            online := true
            version := none
            protocolVersion := none
            playersOnline := none
            playersMax := none
            latencyTime := none
            playersList := none
            motd := none
            map := none
            lastStatusRequestFailed := true },
         (if sampleOnlineState.online then [] else [Event.infoConnEstablished])
           ++ ((if sampleOnlineState.lastStatusRequestFailed then []
                else [Event.warnMetricsFailed]) ++ [Event.notifyUpdated]),
         none) :=
  c6_metrics_failure_frame sampleOnlineState
    { srvRecord := none, probe := .ok, metrics := .errOS } rfl rfl rfl

/-- C5: during any update cycle, a connection-lost warning is emitted
exactly when the connectivity state transitions from ONLINE to OFFLINE, a
connection-(re-)established info message exactly when it transitions from
not-ONLINE to ONLINE, and no transition event at all when the connectivity
outcome repeats the previous one.  Stated for an arbitrary pre-state, hence
for every cycle of every run. -/
theorem c5_transition_edges (inp : CycleInput) (s : ServerState) :
    countEvent Event.warnConnLost (async_update inp s).2.1
      = (if s.online = true ∧ (async_update inp s).1.online = false then 1 else 0)
    ∧ countEvent Event.infoConnEstablished (async_update inp s).2.1
      = (if s.online = false ∧ (async_update inp s).1.online = true then 1 else 0) := by
  rcases s with ⟨sh, sp, onl, lf, srvc, v, pv, lt, po, pm, pl, mo, mp⟩
  rcases inp with ⟨rec, probe, m⟩
  rcases rec with _ | ⟨rh, rp⟩ <;> rcases probe <;> rcases m with r | _ | _ <;>
    rcases srvc <;> rcases onl <;> rcases lf <;>
      simp [async_update, async_check_connection, srvStep, async_status_request,
        countEvent]

/-- C7: a completed update cycle (one no uncaught exception aborted) emits
exactly one dispatcher notification, whatever the probe outcome and however
many fields changed. -/
theorem c7_notification_cardinality (inp : CycleInput) (s : ServerState)
    (h : (async_update inp s).2.2 = none) :
    countEvent Event.notifyUpdated (async_update inp s).2.1 = 1 := by
  rcases s with ⟨sh, sp, onl, lf, srvc, v, pv, lt, po, pm, pl, mo, mp⟩
  rcases inp with ⟨rec, probe, m⟩
  rcases rec with _ | ⟨rh, rp⟩ <;> rcases probe <;> rcases m with r | _ | _ <;>
    rcases srvc <;> rcases onl <;> rcases lf <;>
      simp_all [async_update, async_check_connection, srvStep, async_status_request,
        countEvent]

/-- Witness for C7 at a concrete completed cycle. -/
theorem c7_notification_cardinality_witness :
    countEvent Event.notifyUpdated
      (async_update cyOnline (initialState "mc.example.org" 19132)).2.1 = 1 :=
  c7_notification_cardinality cyOnline (initialState "mc.example.org" 19132) (by decide)

/-- C8: over the whole lifetime of a monitor (any sequence of cycles from a
freshly constructed state) the SRV-resolution helper is invoked at most
once, and the `host`/`port` in force after the first cycle — the rewritten
ones, if the resolution rewrote them — are never changed by any later
cycle. -/
theorem c8_one_time_resolution (host : String) (port : Nat)
    (inps : List CycleInput) (inp : CycleInput) (rest : List CycleInput)
    (h : inps = inp :: rest) :
    countEvent Event.resolverInvoked (traceEvents inps (initialState host port)) ≤ 1
    ∧ (runState inps (initialState host port)).host
        = (async_update inp (initialState host port)).1.host
    ∧ (runState inps (initialState host port)).port
        = (async_update inp (initialState host port)).1.port := by
  subst h
  obtain ⟨g1, g2, g3⟩ :=
    run_checked rest (async_update inp (initialState host port)).1
      (async_update_srvChecked inp (initialState host port))
  refine ⟨?_, ?_, ?_⟩
  · have h1 := async_update_resolver_le_one inp (initialState host port)
    simp only [traceEvents, countEvent_append, g1]
    omega
  · simp only [runState, g2]
  · simp only [runState, g3]

/-- C1 counterexample: a reachable state (one successful cycle, then a
cycle whose connectivity probe fails) has `online = false` while the metric
field `version` still reads the stale value of the earlier online cycle —
the claimed invariant is false on the code. -/
theorem c1_stale_metrics_counterexample :
    (runState [cyOnline, cyProbeFail] (initialState "mc.example.org" 19132)).online = false
    ∧ (runState [cyOnline, cyProbeFail]
          (initialState "mc.example.org" 19132)).version = some "1.16.20" := by
  constructor <;> decide

/-- C1 amended: a cycle whose connectivity probe fails sets `online` to
false and leaves every metric field exactly as it was (the code clears
metric fields only in the metrics-fetch failure path, never on a
connectivity failure), so stale metric values from an earlier online cycle
remain readable through the accessors while offline. -/
theorem c1_stale_metrics_amended (s : ServerState) (inp : CycleInput)
    (hsrv : s.srvRecordChecked = true) (hp : inp.probe = .errOS) :
    async_update inp s
      = ({ s with online := false },
         (if s.online then [Event.warnConnLost] else []) ++ [Event.notifyUpdated],
         none) := by
  rcases s with ⟨sh, sp, onl, lf, srvc, v, pv, lt, po, pm, pl, mo, mp⟩
  rcases inp with ⟨rec, probe, m⟩
  subst hsrv hp
  rcases onl <;> rcases lf <;>
    simp [async_update, async_check_connection, srvStep]

/-- Witness for the amended C1: a probe failure from an online state with a
populated metric field. -/
theorem c1_stale_metrics_amended_witness :
    async_update cyProbeFail sampleOnlineState
      = ({ sampleOnlineState with online := false },
         (if sampleOnlineState.online then [Event.warnConnLost] else [])
           ++ [Event.notifyUpdated],
         none) :=
  c1_stale_metrics_amended sampleOnlineState cyProbeFail rfl rfl

/-- C2 counterexample: a probe failure that is not an `OSError` (the
`except OSError` clause is the only handler) escapes
`async_check_connection` uncaught and leaves the state unchanged — the
claim that every possible failure is converted to the offline result is
false on the code. -/
theorem c2_error_conversion_counterexample :
    async_check_connection
        { srvRecord := none, probe := .errOther, metrics := .ok sampleResponse }
        sampleOnlineState
      = (sampleOnlineState, [], some PyError.otherError) := by
  decide

/-- C2 amended: an `OSError` raised by the status-query collaborator during
the connectivity probe is converted to the offline result and never
escapes; a failure of any other exception type escapes the probe step
uncaught (aborting that cycle). -/
theorem c2_error_conversion_amended (s : ServerState) (inp : CycleInput)
    (hsrv : s.srvRecordChecked = true) :
    async_check_connection { inp with probe := .errOS } s
      = ({ s with online := false }, [], none)
    ∧ async_check_connection { inp with probe := .errOther } s
      = (s, [], some PyError.otherError) := by
  rcases s with ⟨sh, sp, onl, lf, srvc, v, pv, lt, po, pm, pl, mo, mp⟩
  rcases inp with ⟨rec, probe, m⟩
  subst hsrv
  constructor <;> simp [async_check_connection, srvStep]

/-- Witness for the amended C2 at a concrete state and input. -/
theorem c2_error_conversion_amended_witness :
    async_check_connection { cyOnline with probe := .errOS } sampleOnlineState
      = ({ sampleOnlineState with online := false }, [], none)
    ∧ async_check_connection { cyOnline with probe := .errOther } sampleOnlineState
      = (sampleOnlineState, [], some PyError.otherError) :=
  c2_error_conversion_amended sampleOnlineState cyOnline rfl

/-- C4 counterexample: in the scenario [probe fails, probe fails, probe
succeeds] from a freshly constructed monitor, no connection-lost warning is
emitted at all — in particular not on cycle 1, contradicting the claimed
log-event sequence (the loss warning needs a previous ONLINE state, and a
fresh monitor starts not-ONLINE). -/
theorem c4_recovery_scenario_counterexample :
    Event.warnConnLost ∉
      traceEvents [cyProbeFail, cyProbeFail, cyOnline]
        (initialState "mc.example.org" 19132) := by
  decide

/-- C4 amended: from a freshly constructed monitor, the cycle sequence
[fail, fail, success] produces the log events [nothing, nothing, info] and
the connectivity state sequence [OFFLINE, OFFLINE, ONLINE]. -/
theorem c4_recovery_scenario_amended (host : String) (port : Nat)
    (r : StatusResponse) :
    (runCycles
        [{ srvRecord := none, probe := .errOS, metrics := .ok r },
         { srvRecord := none, probe := .errOS, metrics := .ok r },
         { srvRecord := none, probe := .ok, metrics := .ok r }]
        (initialState host port)).map
        (fun p => (p.1.online, p.2.filter Event.isLogMessage))
      = [(false, []), (false, []), (true, [Event.infoConnEstablished])] := by
  simp [runCycles, async_update, async_check_connection, srvStep,
    async_status_request, initialState, Event.isLogMessage]

/-- C9 (code bug): a status response whose round-trip latency is 1 — one
second in the collaborator's seconds-based unit, i.e. 1000 ms — is stored
as `latency_time = 10000`: the source computes
`round(status_response.latency * 10000.0, 3)`, a ten-thousand-fold scaling,
which is a millisecond conversion under no standard time unit (seconds
would need ×1000; milliseconds ×1). -/
theorem c9_latency_scaling_bug :
    (async_status_request (.ok { sampleResponse with latency := 1 })
        (initialState "mc.example.org" 19132)).1.latencyTime = some 10000
    ∧ (10000 : ℚ) ≠ 1000 ∧ (10000 : ℚ) ≠ 1 := by
  have hfl : Rat.floor (10000000 : ℚ) = 10000000 := by
    rw [Rat.floor_def']
    norm_num
  have hpr : pyRound ((10000 : ℚ) * 1000) = 10000000 := by
    rw [show ((10000 : ℚ) * 1000) = 10000000 by norm_num]
    norm_num [pyRound, hfl]
  have hp3 : pyRound3 (10000 : ℚ) = 10000 := by
    show mkRat (pyRound ((10000 : ℚ) * 1000)) 1000 = 10000
    rw [hpr, Rat.mkRat_eq_div]
    norm_num
  refine ⟨?_, by norm_num, by norm_num⟩
  simp [async_status_request, sampleResponse, hp3]

/-- C10: on a monitor whose SRV resolution returns an alternate host/port,
the first update cycle rewrites `host`/`port`, then aborts with the
uncaught `NameError` from the undefined name `MCStatus` — before the
connectivity probe, the state transition logging and the subscriber
notification (the events are exactly the resolver invocation, `online` is
untouched and no notification is sent); a cycle whose resolution returns
nothing never raises `NameError`. -/
theorem c10_srv_rewrite_nameerror (s t : ServerState) (inp jnp : CycleInput)
    (rh : String) (rp : Nat)
    (hfresh : s.srvRecordChecked = false) (hsome : inp.srvRecord = some (rh, rp))
    (hnone : jnp.srvRecord = none) :
    async_update inp s
      = ({ s with srvRecordChecked := true, host := rh, port := rp },
         [Event.resolverInvoked], some PyError.nameError)
    ∧ (async_update jnp t).2.2 ≠ some PyError.nameError := by
  constructor
  · rcases s with ⟨sh, sp, onl, lf, srvc, v, pv, lt, po, pm, pl, mo, mp⟩
    rcases inp with ⟨rec, probe, m⟩
    subst hfresh hsome
    simp [async_update, async_check_connection, srvStep]
  · rcases t with ⟨sh, sp, onl, lf, srvc, v, pv, lt, po, pm, pl, mo, mp⟩
    rcases jnp with ⟨rec, probe, m⟩
    subst hnone
    rcases probe <;> rcases m with r | _ | _ <;> rcases srvc <;> rcases onl <;>
      rcases lf <;>
        simp [async_update, async_check_connection, srvStep, async_status_request]

/-- Witness for C10: a fresh monitor whose resolution finds a record, and a
fresh monitor whose resolution finds none. -/
theorem c10_srv_rewrite_nameerror_witness :
    async_update { cyOnline with srvRecord := some ("mc.real.example.org", 19133) }
        (initialState "mc.example.org" 19132)
      = ({ initialState "mc.example.org" 19132 with
            srvRecordChecked := true
            host := "mc.real.example.org"
            port := 19133 },
         [Event.resolverInvoked], some PyError.nameError)
    ∧ (async_update cyOnline (initialState "mc.example.org" 19132)).2.2
        ≠ some PyError.nameError :=
  c10_srv_rewrite_nameerror (initialState "mc.example.org" 19132)
    (initialState "mc.example.org" 19132)
    { cyOnline with srvRecord := some ("mc.real.example.org", 19133) }
    cyOnline "mc.real.example.org" 19133 rfl rfl rfl

/-- Witness for C8 on a concrete two-cycle run (resolution succeeds on the
first cycle, a further cycle follows). -/
theorem c8_one_time_resolution_witness :
    countEvent Event.resolverInvoked
      (traceEvents [{ cyOnline with srvRecord := some ("mc.real.example.org", 19133) }, cyOnline]
        (initialState "mc.example.org" 19132)) ≤ 1
    ∧ (runState [{ cyOnline with srvRecord := some ("mc.real.example.org", 19133) }, cyOnline]
          (initialState "mc.example.org" 19132)).host
        = (async_update { cyOnline with srvRecord := some ("mc.real.example.org", 19133) }
            (initialState "mc.example.org" 19132)).1.host
    ∧ (runState [{ cyOnline with srvRecord := some ("mc.real.example.org", 19133) }, cyOnline]
          (initialState "mc.example.org" 19132)).port
        = (async_update { cyOnline with srvRecord := some ("mc.real.example.org", 19133) }
            (initialState "mc.example.org" 19132)).1.port :=
  c8_one_time_resolution "mc.example.org" 19132 _ _ _ rfl

end MinecraftBedrock
